import Mathlib

/-!
Verification of the in-memory banking ledger of
`node-api-monitoring/banking-services/database.js`.

The JavaScript module keeps a mutable record `db` with customers,
transactions, sessions and analytics counters, and exposes free functions
that read and mutate it.  We embed it as a state-passing program over a
`DB` structure: each JS function becomes a Lean function from `DB` to a
result paired with the successor state.

Modelling decisions:
* Monetary values are JS numbers used integrally throughout the module;
  we model them as `Int`.
* `uuidv4()` ids are modelled by a monotone counter `nextId`; the only
  role ids play in the module is identity for `find`-by-id lookups.
* Timestamps are irrelevant to every operation's logic and are omitted.
* JS `find` returns a live reference to the first match and callers
  mutate it in place; we model this as "update the first matching list
  element".  The aliasing of the returned transaction object in the
  `process*` functions is modelled by returning the post-update copy.
-/

inductive TxType
  | deposit
  | withdrawal
  | transfer
deriving DecidableEq, Repr

inductive TxStatus
  | pending
  | completed
  | failed
deriving DecidableEq, Repr

structure Customer where
  id : String
  name : String
  email : String
  accountNumber : String
  balance : Int
deriving DecidableEq, Repr

structure Transaction where
  id : Nat
  accountNumber : String
  type : TxType
  amount : Int
  destinationAccount : Option String
  status : TxStatus
  reason : Option String
deriving DecidableEq, Repr

structure Analytics where
  activeSessions : Nat
  totalTransactions : Nat
  depositTotal : Int
  withdrawalTotal : Int
  transferTotal : Int
deriving DecidableEq, Repr

structure DB where
  customers : List Customer
  transactions : List Transaction
  sessions : List String
  analytics : Analytics
  nextId : Nat
deriving DecidableEq, Repr

/-- The fields a caller passes to `createTransaction`; `status` and
`reason` are optional because the JS object spread `...transaction`
overrides the `pending` default only when the caller supplies them. -/
structure TxInput where
  accountNumber : String
  type : TxType
  amount : Int
  destinationAccount : Option String
  status : Option TxStatus
  reason : Option String
deriving DecidableEq, Repr

/-- Result shape `{ success, transaction, reason? }` returned by the
`process*` functions. -/
structure OpResult where
  success : Bool
  transaction : Transaction
  reason : Option String
deriving DecidableEq, Repr

/-- The seeded `db` literal at the top of `database.js` (ids `t1,t2,t3`
modelled as `0,1,2`). -/
def seedDB : DB :=
  { customers :=
      [ { id := "1", name := "John Doe", email := "john@example.com",
          accountNumber := "10001", balance := 5000 },
        { id := "2", name := "Jane Smith", email := "jane@example.com",
          accountNumber := "10002", balance := 7500 },
        { id := "3", name := "Robert Johnson", email := "robert@example.com",
          accountNumber := "10003", balance := 12000 } ],
    transactions :=
      [ { id := 0, accountNumber := "10001", type := TxType.deposit,
          amount := 1000, destinationAccount := none,
          status := TxStatus.completed, reason := none },
        { id := 1, accountNumber := "10002", type := TxType.withdrawal,
          amount := 500, destinationAccount := none,
          status := TxStatus.completed, reason := none },
        { id := 2, accountNumber := "10001", type := TxType.transfer,
          amount := 750, destinationAccount := some "10003",
          status := TxStatus.completed, reason := none } ],
    sessions := [],
    analytics :=
      { activeSessions := 0, totalTransactions := 3,
        depositTotal := 1000, withdrawalTotal := 500, transferTotal := 750 },
    nextId := 3 }

/-- JS `customerOperations.getCustomerByAccountNumber`. -/
def getCustomerByAccountNumber (db : DB) (accountNumber : String) : Option Customer :=
  db.customers.find? (fun c => c.accountNumber == accountNumber)

/-- JS `customerOperations.getCustomerBalance`: `customer ? customer.balance : null`. -/
def getCustomerBalance (db : DB) (accountNumber : String) : Option Int :=
  (db.customers.find? (fun c => c.accountNumber == accountNumber)).map Customer.balance

/-- Mutation of the customer object returned by `find`: add `amount` to the
balance of the first customer whose account number matches. -/
def addToFirst : List Customer → String → Int → List Customer
  | [], _, _ => []
  | c :: cs, accountNumber, amount =>
    if c.accountNumber == accountNumber then
      { c with balance := c.balance + amount } :: cs
    else
      c :: addToFirst cs accountNumber amount

/-- JS `customerOperations.updateCustomerBalance`: find the customer, add
`amount` to its balance and report `true`; report `false` when absent. -/
def updateCustomerBalance (db : DB) (accountNumber : String) (amount : Int) :
    Bool × DB :=
  match db.customers.find? (fun c => c.accountNumber == accountNumber) with
  | some _ => (true, { db with customers := addToFirst db.customers accountNumber amount })
  | none => (false, db)

/-- JS `transactionOperations.getTransactionsByAccountNumber`. -/
def getTransactionsByAccountNumber (db : DB) (accountNumber : String) :
    List Transaction :=
  db.transactions.filter (fun t => t.accountNumber == accountNumber)

/-- JS `transactionOperations.createTransaction`: build the record (defaults
`status: pending`, overridden by the spread when the input carries a
status), push it, and bump the analytics counters — unconditionally, the
type bucket is increased by `amount` whatever the status is. -/
def createTransaction (db : DB) (t : TxInput) : Transaction × DB :=
  let newTransaction : Transaction :=
    { id := db.nextId,
      accountNumber := t.accountNumber,
      type := t.type,
      amount := t.amount,
      destinationAccount := t.destinationAccount,
      status := t.status.getD TxStatus.pending,
      reason := t.reason }
  let a0 := db.analytics
  let a1 := { a0 with totalTransactions := a0.totalTransactions + 1 }
  let a2 :=
    match t.type with
    | TxType.deposit => { a1 with depositTotal := a1.depositTotal + t.amount }
    | TxType.withdrawal => { a1 with withdrawalTotal := a1.withdrawalTotal + t.amount }
    | TxType.transfer => { a1 with transferTotal := a1.transferTotal + t.amount }
  (newTransaction,
    { db with transactions := db.transactions ++ [newTransaction],
              analytics := a2,
              nextId := db.nextId + 1 })

/-- Mutation of the transaction object returned by `find`: set the status
of the first transaction whose id matches. -/
def setStatusFirst : List Transaction → Nat → TxStatus → List Transaction
  | [], _, _ => []
  | t :: ts, i, s =>
    if t.id == i then { t with status := s } :: ts
    else t :: setStatusFirst ts i s

/-- JS `transactionOperations.updateTransactionStatus`. -/
def updateTransactionStatus (db : DB) (i : Nat) (status : TxStatus) :
    Option Transaction × DB :=
  match db.transactions.find? (fun t => t.id == i) with
  | some t =>
    (some { t with status := status },
      { db with transactions := setStatusFirst db.transactions i status })
  | none => (none, db)

/-- JS `transactionOperations.processDeposit`. -/
def processDeposit (db : DB) (accountNumber : String) (amount : Int) :
    OpResult × DB :=
  let r1 := createTransaction db
    { accountNumber := accountNumber, type := TxType.deposit, amount := amount,
      destinationAccount := none, status := none, reason := none }
  let transaction := r1.1
  let r2 := updateCustomerBalance r1.2 accountNumber amount
  if r2.1 then
    let r3 := updateTransactionStatus r2.2 transaction.id TxStatus.completed
    ({ success := true, transaction := r3.1.getD transaction, reason := none }, r3.2)
  else
    let r3 := updateTransactionStatus r2.2 transaction.id TxStatus.failed
    ({ success := false, transaction := r3.1.getD transaction, reason := none }, r3.2)

/-- The guard `balance === null || balance < amount` shared by
`processWithdrawal` and `processTransfer`. -/
def insufficientBalance (balance : Option Int) (amount : Int) : Bool :=
  match balance with
  | none => true
  | some b => b < amount

/-- JS `transactionOperations.processWithdrawal`. -/
def processWithdrawal (db : DB) (accountNumber : String) (amount : Int) :
    OpResult × DB :=
  if insufficientBalance (getCustomerBalance db accountNumber) amount then
    let r1 := createTransaction db
      { accountNumber := accountNumber, type := TxType.withdrawal, amount := amount,
        destinationAccount := none, status := some TxStatus.failed,
        reason := some "Insufficient funds" }
    ({ success := false, transaction := r1.1, reason := some "Insufficient funds" }, r1.2)
  else
    let r1 := createTransaction db
      { accountNumber := accountNumber, type := TxType.withdrawal, amount := amount,
        destinationAccount := none, status := none, reason := none }
    let transaction := r1.1
    let r2 := updateCustomerBalance r1.2 accountNumber (-amount)
    if r2.1 then
      let r3 := updateTransactionStatus r2.2 transaction.id TxStatus.completed
      ({ success := true, transaction := r3.1.getD transaction, reason := none }, r3.2)
    else
      let r3 := updateTransactionStatus r2.2 transaction.id TxStatus.failed
      ({ success := false, transaction := r3.1.getD transaction, reason := none }, r3.2)

/-- JS `transactionOperations.processTransfer`. -/
def processTransfer (db : DB) (sourceAccount destinationAccount : String)
    (amount : Int) : OpResult × DB :=
  if insufficientBalance (getCustomerBalance db sourceAccount) amount then
    let r1 := createTransaction db
      { accountNumber := sourceAccount, type := TxType.transfer, amount := amount,
        destinationAccount := some destinationAccount,
        status := some TxStatus.failed, reason := some "Insufficient funds" }
    ({ success := false, transaction := r1.1, reason := some "Insufficient funds" }, r1.2)
  else
    match getCustomerByAccountNumber db destinationAccount with
    | none =>
      let r1 := createTransaction db
        { accountNumber := sourceAccount, type := TxType.transfer, amount := amount,
          destinationAccount := some destinationAccount,
          status := some TxStatus.failed,
          reason := some "Destination account not found" }
      ({ success := false, transaction := r1.1,
         reason := some "Destination account not found" }, r1.2)
    | some _ =>
      let r1 := createTransaction db
        { accountNumber := sourceAccount, type := TxType.transfer, amount := amount,
          destinationAccount := some destinationAccount, status := none, reason := none }
      let transaction := r1.1
      let r2 := updateCustomerBalance r1.2 sourceAccount (-amount)
      let r3 := updateCustomerBalance r2.2 destinationAccount amount
      if r2.1 && r3.1 then
        let r4 := updateTransactionStatus r3.2 transaction.id TxStatus.completed
        ({ success := true, transaction := r4.1.getD transaction, reason := none }, r4.2)
      else
        let db4 := if r2.1 then (updateCustomerBalance r3.2 sourceAccount amount).2 else r3.2
        let r5 := updateTransactionStatus db4 transaction.id TxStatus.failed
        ({ success := false, transaction := r5.1.getD transaction, reason := none }, r5.2)

/-- The summary record of `analyticsOperations.getTransactionSummary`. -/
structure Summary where
  totalCount : Nat
  completedCount : Nat
  pendingCount : Nat
  failedCount : Nat
  depositTotal : Int
  withdrawalTotal : Int
  transferTotal : Int
deriving DecidableEq, Repr

/-- JS `analyticsOperations.getTransactionSummary`. -/
def getTransactionSummary (db : DB) : Summary :=
  { totalCount := db.transactions.length,
    completedCount := (db.transactions.filter (fun t => t.status == TxStatus.completed)).length,
    pendingCount := (db.transactions.filter (fun t => t.status == TxStatus.pending)).length,
    failedCount := (db.transactions.filter (fun t => t.status == TxStatus.failed)).length,
    depositTotal := db.analytics.depositTotal,
    withdrawalTotal := db.analytics.withdrawalTotal,
    transferTotal := db.analytics.transferTotal }

/-- The `splice` of the first occurrence found by `indexOf` (identity when the
element is absent, exactly as the `index !== -1` guard behaves). -/
def removeFirst : List String → String → List String
  | [], _ => []
  | s :: ss, x => if s == x then ss else s :: removeFirst ss x

/-- JS `analyticsOperations.trackSession`. -/
def trackSession (db : DB) (sessionId : String) (active : Bool) : Nat × DB :=
  if active then
    let sessions := db.sessions ++ [sessionId]
    (sessions.length,
      { db with sessions := sessions,
                analytics := { db.analytics with activeSessions := sessions.length } })
  else
    let sessions := removeFirst db.sessions sessionId
    (sessions.length,
      { db with sessions := sessions,
                analytics := { db.analytics with activeSessions := sessions.length } })

/-- One caller-visible ledger operation, for stating properties of
operation sequences. -/
inductive Op
  | deposit (accountNumber : String) (amount : Int)
  | withdrawal (accountNumber : String) (amount : Int)
  | transfer (sourceAccount destinationAccount : String) (amount : Int)
  | track (sessionId : String) (active : Bool)
deriving DecidableEq, Repr

def applyOp (db : DB) : Op → DB
  | Op.deposit a m => (processDeposit db a m).2
  | Op.withdrawal a m => (processWithdrawal db a m).2
  | Op.transfer a b m => (processTransfer db a b m).2
  | Op.track s act => (trackSession db s act).2

def runOps (db : DB) (ops : List Op) : DB :=
  ops.foldl applyOp db

/-- Sum of all account balances (the conserved quantity). -/
def sumBalances (cs : List Customer) : Int :=
  (cs.map Customer.balance).sum

/-- Sum of `amount` over the log entries of one type, whatever their
status: the quantity the analytics buckets actually track. -/
def typeTotal (ts : List Transaction) (ty : TxType) : Int :=
  ((ts.filter (fun t => t.type == ty)).map Transaction.amount).sum

/-- Sum of `amount` over the `completed` log entries of one type: the
quantity the specification says the analytics buckets track. -/
def completedTypeTotal (ts : List Transaction) (ty : TxType) : Int :=
  ((ts.filter (fun t => t.type == ty && t.status == TxStatus.completed)).map
    Transaction.amount).sum

/-- Transaction ids in the log are all strictly below the id counter; this
holds for the seed and is preserved by every operation, and it is what
makes `find`-by-id hit the transaction just created. -/
def WF (db : DB) : Prop :=
  ∀ t ∈ db.transactions, t.id < db.nextId

/-- All account balances are non-negative. -/
def balancesNonNeg (db : DB) : Prop :=
  ∀ c ∈ db.customers, 0 ≤ c.balance

/-- The analytics buckets agree with the per-type sums over the whole
log, failed and pending entries included. -/
def analyticsConsistent (db : DB) : Prop :=
  db.analytics.depositTotal = typeTotal db.transactions TxType.deposit ∧
  db.analytics.withdrawalTotal = typeTotal db.transactions TxType.withdrawal ∧
  db.analytics.transferTotal = typeTotal db.transactions TxType.transfer

/-- The amount carried by an operation is strictly positive (vacuously
true for session tracking, which carries no amount). -/
def opAmountPos : Op → Bool
  | Op.deposit _ m => decide (0 < m)
  | Op.withdrawal _ m => decide (0 < m)
  | Op.transfer _ _ m => decide (0 < m)
  | Op.track _ _ => true

/- ### Projection and equation lemmas for the primitive operations -/

theorem createTransaction_fst (db : DB) (t : TxInput) :
    (createTransaction db t).1 =
      { id := db.nextId, accountNumber := t.accountNumber, type := t.type,
        amount := t.amount, destinationAccount := t.destinationAccount,
        status := t.status.getD TxStatus.pending, reason := t.reason } := rfl

theorem createTransaction_customers (db : DB) (t : TxInput) :
    (createTransaction db t).2.customers = db.customers := rfl

theorem createTransaction_transactions (db : DB) (t : TxInput) :
    (createTransaction db t).2.transactions =
      db.transactions ++ [(createTransaction db t).1] := rfl

theorem createTransaction_nextId (db : DB) (t : TxInput) :
    (createTransaction db t).2.nextId = db.nextId + 1 := rfl

theorem updateCustomerBalance_of_find_some (db : DB) (a : String) (m : Int)
    (c0 : Customer)
    (h : db.customers.find? (fun c => c.accountNumber == a) = some c0) :
    updateCustomerBalance db a m =
      (true, { db with customers := addToFirst db.customers a m }) := by
  unfold updateCustomerBalance
  rw [h]

theorem updateCustomerBalance_of_find_none (db : DB) (a : String) (m : Int)
    (h : db.customers.find? (fun c => c.accountNumber == a) = none) :
    updateCustomerBalance db a m = (false, db) := by
  unfold updateCustomerBalance
  rw [h]

theorem updateCustomerBalance_fst (db : DB) (a : String) (m : Int) :
    (updateCustomerBalance db a m).1 =
      (db.customers.find? (fun c => c.accountNumber == a)).isSome := by
  unfold updateCustomerBalance
  cases h : db.customers.find? (fun c => c.accountNumber == a) <;> simp

theorem updateCustomerBalance_transactions (db : DB) (a : String) (m : Int) :
    (updateCustomerBalance db a m).2.transactions = db.transactions := by
  unfold updateCustomerBalance
  cases h : db.customers.find? (fun c => c.accountNumber == a) <;> rfl

theorem updateCustomerBalance_analytics (db : DB) (a : String) (m : Int) :
    (updateCustomerBalance db a m).2.analytics = db.analytics := by
  unfold updateCustomerBalance
  cases h : db.customers.find? (fun c => c.accountNumber == a) <;> rfl

theorem updateCustomerBalance_nextId (db : DB) (a : String) (m : Int) :
    (updateCustomerBalance db a m).2.nextId = db.nextId := by
  unfold updateCustomerBalance
  cases h : db.customers.find? (fun c => c.accountNumber == a) <;> rfl

theorem updateTransactionStatus_customers (db : DB) (i : Nat) (s : TxStatus) :
    (updateTransactionStatus db i s).2.customers = db.customers := by
  unfold updateTransactionStatus
  cases h : db.transactions.find? (fun t => t.id == i) <;> rfl

theorem updateTransactionStatus_analytics (db : DB) (i : Nat) (s : TxStatus) :
    (updateTransactionStatus db i s).2.analytics = db.analytics := by
  unfold updateTransactionStatus
  cases h : db.transactions.find? (fun t => t.id == i) <;> rfl

/- ### Freshness: `find`-by-id and `setStatusFirst` on a log ending in a
fresh transaction -/

theorem find?_id_append_fresh (ts : List Transaction) (tx : Transaction)
    (h : ∀ t ∈ ts, t.id ≠ tx.id) :
    (ts ++ [tx]).find? (fun t => t.id == tx.id) = some tx := by
  induction ts with
  | nil => simp
  | cons t ts ih =>
    have ht : (t.id == tx.id) = false := by
      simp only [beq_eq_false_iff_ne, ne_eq]
      exact h t (by simp)
    simpa [List.find?_cons, ht] using ih (fun u hu => h u (by simp [hu]))

theorem setStatusFirst_append_fresh (ts : List Transaction) (tx : Transaction)
    (s : TxStatus) (h : ∀ t ∈ ts, t.id ≠ tx.id) :
    setStatusFirst (ts ++ [tx]) tx.id s = ts ++ [{ tx with status := s }] := by
  induction ts with
  | nil => simp [setStatusFirst]
  | cons t ts ih =>
    have ht : (t.id == tx.id) = false := by
      simp only [beq_eq_false_iff_ne, ne_eq]
      exact h t (by simp)
    simp only [List.cons_append, setStatusFirst, ht, if_neg]
    simp [ih (fun u hu => h u (by simp [hu]))]

theorem updateTransactionStatus_append_fresh (dbX : DB) (ts0 : List Transaction)
    (tx : Transaction) (s : TxStatus)
    (htrans : dbX.transactions = ts0 ++ [tx])
    (h : ∀ t ∈ ts0, t.id ≠ tx.id) :
    updateTransactionStatus dbX tx.id s =
      (some { tx with status := s },
        { dbX with transactions := ts0 ++ [{ tx with status := s }] }) := by
  unfold updateTransactionStatus
  rw [htrans, find?_id_append_fresh ts0 tx h, setStatusFirst_append_fresh ts0 tx s h]

/- ### Balance sums under `addToFirst` -/

theorem sumBalances_cons (c : Customer) (cs : List Customer) :
    sumBalances (c :: cs) = c.balance + sumBalances cs := by
  simp [sumBalances]

theorem sumBalances_addToFirst (cs : List Customer) (a : String) (d : Int)
    (h : (cs.find? (fun c => c.accountNumber == a)).isSome) :
    sumBalances (addToFirst cs a d) = sumBalances cs + d := by
  induction cs with
  | nil => simp at h
  | cons c cs ih =>
    by_cases hc : (c.accountNumber == a) = true
    · simp only [addToFirst, hc, if_pos, sumBalances_cons]
      ring
    · have hc' : (c.accountNumber == a) = false := by
        simpa using hc
      have h' : (cs.find? (fun c => c.accountNumber == a)).isSome := by
        simpa [List.find?_cons, hc'] using h
      simp only [addToFirst, hc', Bool.false_eq_true, if_neg, not_false_iff,
        sumBalances_cons, ih h']
      ring

theorem addToFirst_map_accountNumber (cs : List Customer) (a : String) (d : Int) :
    (addToFirst cs a d).map Customer.accountNumber =
      cs.map Customer.accountNumber := by
  induction cs with
  | nil => rfl
  | cons c cs ih =>
    by_cases hc : (c.accountNumber == a) = true
    · simp [addToFirst, hc]
    · simp only [Bool.not_eq_true] at hc
      simp [addToFirst, hc, ih]

theorem find?_acct_addToFirst_isSome (cs : List Customer) (a b : String) (d : Int) :
    ((addToFirst cs a d).find? (fun c => c.accountNumber == b)).isSome =
      (cs.find? (fun c => c.accountNumber == b)).isSome := by
  induction cs with
  | nil => rfl
  | cons c cs ih =>
    by_cases hc : (c.accountNumber == a) = true
    · cases hb : (c.accountNumber == b) <;>
        simp [addToFirst, hc, List.find?_cons, hb]
    · have hc' : (c.accountNumber == a) = false := by simpa using hc
      cases hb : (c.accountNumber == b) <;>
        simp [addToFirst, hc', List.find?_cons, hb, ih]

/- ### Non-negativity under `addToFirst` -/

theorem addToFirst_nonneg (cs : List Customer) (a : String) (d : Int)
    (h0 : ∀ c ∈ cs, 0 ≤ c.balance)
    (h1 : ∀ c, cs.find? (fun c => c.accountNumber == a) = some c →
      0 ≤ c.balance + d) :
    ∀ c ∈ addToFirst cs a d, 0 ≤ c.balance := by
  induction cs with
  | nil => intro c hc; simp [addToFirst] at hc
  | cons c cs ih =>
    by_cases hc : (c.accountNumber == a) = true
    · intro x hx
      simp only [addToFirst, hc, if_pos, List.mem_cons] at hx
      rcases hx with hx | hx
      · subst hx
        exact h1 c (by simp [List.find?_cons, hc])
      · exact h0 x (List.mem_cons_of_mem _ hx)
    · have hc' : (c.accountNumber == a) = false := by simpa using hc
      intro x hx
      simp only [addToFirst, hc', Bool.false_eq_true, if_neg, not_false_iff,
        List.mem_cons] at hx
      rcases hx with hx | hx
      · subst hx
        exact h0 x (List.mem_cons_self _ _)
      · exact ih (fun y hy => h0 y (List.mem_cons_of_mem _ hy))
          (fun y hy => h1 y (by simp [List.find?_cons, hc', hy])) x hx

theorem addToFirst_nonneg_of_nonneg (cs : List Customer) (a : String) (d : Int)
    (h0 : ∀ c ∈ cs, 0 ≤ c.balance) (hd : 0 ≤ d) :
    ∀ c ∈ addToFirst cs a d, 0 ≤ c.balance := by
  refine addToFirst_nonneg cs a d h0 (fun c hc => ?_)
  have := h0 c (List.mem_of_find?_eq_some hc)
  omega

/- ### `typeTotal` under append and status updates -/

theorem typeTotal_cons (t : Transaction) (ts : List Transaction) (ty : TxType) :
    typeTotal (t :: ts) ty =
      (if t.type == ty then t.amount else 0) + typeTotal ts ty := by
  by_cases h : (t.type == ty) = true <;>
    simp [typeTotal, List.filter_cons, h]

theorem typeTotal_append_one (ts : List Transaction) (tx : Transaction) (ty : TxType) :
    typeTotal (ts ++ [tx]) ty =
      typeTotal ts ty + (if tx.type == ty then tx.amount else 0) := by
  by_cases h : (tx.type == ty) = true <;>
    simp [typeTotal, List.filter_append, List.filter_cons, h]

theorem typeTotal_setStatusFirst (ts : List Transaction) (i : Nat) (s : TxStatus)
    (ty : TxType) :
    typeTotal (setStatusFirst ts i s) ty = typeTotal ts ty := by
  induction ts with
  | nil => rfl
  | cons t ts ih =>
    by_cases h : (t.id == i) = true
    · simp [setStatusFirst, h, typeTotal_cons]
    · have h' : (t.id == i) = false := by simpa using h
      simp [setStatusFirst, h', typeTotal_cons, ih]

/- ### Analytics consistency: each primitive preserves it -/

theorem setStatusFirst_of_find?_none (ts : List Transaction) (i : Nat)
    (s : TxStatus) (h : ts.find? (fun t => t.id == i) = none) :
    setStatusFirst ts i s = ts := by
  induction ts with
  | nil => rfl
  | cons t ts ih =>
    rw [List.find?_cons] at h
    cases ht : (t.id == i) with
    | true => simp [ht] at h
    | false =>
      rw [ht] at h
      simp [setStatusFirst, ht, ih h]

theorem updateTransactionStatus_transactions (db : DB) (i : Nat) (s : TxStatus) :
    (updateTransactionStatus db i s).2.transactions =
      setStatusFirst db.transactions i s := by
  unfold updateTransactionStatus
  cases h : db.transactions.find? (fun t => t.id == i) with
  | none => simp [setStatusFirst_of_find?_none _ _ s h]
  | some t => rfl

theorem createTransaction_consistent (db : DB) (t : TxInput)
    (h : analyticsConsistent db) :
    analyticsConsistent (createTransaction db t).2 := by
  obtain ⟨h1, h2, h3⟩ := h
  obtain ⟨acct, ty, amt, dest, st, rsn⟩ := t
  cases ty <;>
    simp_all [createTransaction, analyticsConsistent, typeTotal_append_one]

theorem updateCustomerBalance_consistent (db : DB) (a : String) (m : Int)
    (h : analyticsConsistent db) :
    analyticsConsistent (updateCustomerBalance db a m).2 := by
  obtain ⟨h1, h2, h3⟩ := h
  refine ⟨?_, ?_, ?_⟩ <;>
    rw [updateCustomerBalance_analytics, updateCustomerBalance_transactions] <;>
    assumption

theorem updateTransactionStatus_consistent (db : DB) (i : Nat) (s : TxStatus)
    (h : analyticsConsistent db) :
    analyticsConsistent (updateTransactionStatus db i s).2 := by
  obtain ⟨h1, h2, h3⟩ := h
  refine ⟨?_, ?_, ?_⟩ <;>
    rw [updateTransactionStatus_analytics, updateTransactionStatus_transactions,
      typeTotal_setStatusFirst] <;>
    assumption

theorem trackSession_consistent (db : DB) (sid : String) (act : Bool)
    (h : analyticsConsistent db) :
    analyticsConsistent (trackSession db sid act).2 := by
  obtain ⟨h1, h2, h3⟩ := h
  unfold trackSession
  split <;> exact ⟨h1, h2, h3⟩

theorem applyOp_consistent (db : DB) (op : Op) (h : analyticsConsistent db) :
    analyticsConsistent (applyOp db op) := by
  cases op with
  | deposit a m =>
    simp only [applyOp, processDeposit]
    split <;>
      exact updateTransactionStatus_consistent _ _ _
        (updateCustomerBalance_consistent _ _ _
          (createTransaction_consistent _ _ h))
  | withdrawal a m =>
    simp only [applyOp, processWithdrawal]
    split
    · exact createTransaction_consistent _ _ h
    · split <;>
        exact updateTransactionStatus_consistent _ _ _
          (updateCustomerBalance_consistent _ _ _
            (createTransaction_consistent _ _ h))
  | transfer a b m =>
    simp only [applyOp, processTransfer]
    split
    · exact createTransaction_consistent _ _ h
    · split
      · exact createTransaction_consistent _ _ h
      · split
        · exact updateTransactionStatus_consistent _ _ _
            (updateCustomerBalance_consistent _ _ _
              (updateCustomerBalance_consistent _ _ _
                (createTransaction_consistent _ _ h)))
        · split
          · exact updateTransactionStatus_consistent _ _ _
              (updateCustomerBalance_consistent _ _ _
                (updateCustomerBalance_consistent _ _ _
                  (updateCustomerBalance_consistent _ _ _
                    (createTransaction_consistent _ _ h))))
          · exact updateTransactionStatus_consistent _ _ _
              (updateCustomerBalance_consistent _ _ _
                (updateCustomerBalance_consistent _ _ _
                  (createTransaction_consistent _ _ h)))
  | track sid act =>
    exact trackSession_consistent _ _ _ h

theorem runOps_consistent (ops : List Op) :
    ∀ db : DB, analyticsConsistent db → analyticsConsistent (runOps db ops) := by
  induction ops with
  | nil => intro db h; exact h
  | cons op ops ih =>
    intro db h
    exact ih (applyOp db op) (applyOp_consistent db op h)

theorem seedDB_consistent : analyticsConsistent seedDB := by
  refine ⟨?_, ?_, ?_⟩ <;> decide

/- ### Non-negativity: each operation with positive amount preserves it -/

theorem trackSession_customers (db : DB) (sid : String) (act : Bool) :
    (trackSession db sid act).2.customers = db.customers := by
  unfold trackSession
  split <;> rfl

theorem updateTransactionStatus_nonneg (db : DB) (i : Nat) (s : TxStatus)
    (h : ∀ c ∈ db.customers, 0 ≤ c.balance) :
    ∀ c ∈ (updateTransactionStatus db i s).2.customers, 0 ≤ c.balance := by
  intro c hc
  rw [updateTransactionStatus_customers] at hc
  exact h c hc

theorem updateCustomerBalance_nonneg (db : DB) (a : String) (d : Int)
    (h0 : ∀ c ∈ db.customers, 0 ≤ c.balance)
    (h1 : ∀ c, db.customers.find? (fun c => c.accountNumber == a) = some c →
      0 ≤ c.balance + d) :
    ∀ c ∈ (updateCustomerBalance db a d).2.customers, 0 ≤ c.balance := by
  cases hfind : db.customers.find? (fun c => c.accountNumber == a) with
  | none =>
    rw [updateCustomerBalance_of_find_none db a d hfind]
    exact h0
  | some c0 =>
    rw [updateCustomerBalance_of_find_some db a d c0 hfind]
    exact addToFirst_nonneg db.customers a d h0 h1

theorem updateCustomerBalance_nonneg_of_nonneg (db : DB) (a : String) (d : Int)
    (h0 : ∀ c ∈ db.customers, 0 ≤ c.balance) (hd : 0 ≤ d) :
    ∀ c ∈ (updateCustomerBalance db a d).2.customers, 0 ≤ c.balance := by
  refine updateCustomerBalance_nonneg db a d h0 (fun c hc => ?_)
  have := h0 c (List.mem_of_find?_eq_some hc)
  omega

theorem insufficientBalance_eq_false (bal : Option Int) (m : Int)
    (h : insufficientBalance bal m = false) : ∃ b, bal = some b ∧ m ≤ b := by
  cases bal with
  | none => simp [insufficientBalance] at h
  | some b =>
    refine ⟨b, rfl, ?_⟩
    simpa [insufficientBalance, not_lt] using h

theorem getCustomerBalance_eq_some (db : DB) (a : String) (b : Int)
    (h : getCustomerBalance db a = some b) :
    ∃ c0, db.customers.find? (fun c => c.accountNumber == a) = some c0 ∧
      c0.balance = b := by
  unfold getCustomerBalance at h
  cases hf : db.customers.find? (fun c => c.accountNumber == a) with
  | none => rw [hf] at h; simp at h
  | some c0 =>
    rw [hf] at h
    exact ⟨c0, rfl, by simpa using h⟩

theorem updateCustomerBalance_nonneg_debit (db : DB) (a : String) (m : Int)
    (h0 : ∀ c ∈ db.customers, 0 ≤ c.balance)
    (hin : insufficientBalance (getCustomerBalance db a) m = false) :
    ∀ c ∈ (updateCustomerBalance db a (-m)).2.customers, 0 ≤ c.balance := by
  obtain ⟨b0, hb0, hmb⟩ := insufficientBalance_eq_false _ _ hin
  obtain ⟨c0, hc0, hbal⟩ := getCustomerBalance_eq_some db a b0 hb0
  refine updateCustomerBalance_nonneg db a (-m) h0 (fun c hc => ?_)
  rw [hc0] at hc
  have hcc : c0 = c := by injection hc
  subst hcc
  omega

theorem applyOp_nonneg (db : DB) (op : Op) (h0 : balancesNonNeg db)
    (hp : opAmountPos op = true) : balancesNonNeg (applyOp db op) := by
  cases op with
  | deposit a m =>
    have hm : (0 : Int) < m := of_decide_eq_true hp
    simp only [applyOp, processDeposit]
    split <;>
      exact updateTransactionStatus_nonneg _ _ _
        (updateCustomerBalance_nonneg_of_nonneg _ _ _ h0 (le_of_lt hm))
  | withdrawal a m =>
    have hm : (0 : Int) < m := of_decide_eq_true hp
    simp only [applyOp, processWithdrawal]
    split
    · exact h0
    · next hin =>
      have hin2 : insufficientBalance (getCustomerBalance db a) m = false := by
        simpa using hin
      split <;>
        exact updateTransactionStatus_nonneg _ _ _
          (updateCustomerBalance_nonneg_debit _ a m h0 hin2)
  | transfer a b m =>
    have hm : (0 : Int) < m := of_decide_eq_true hp
    simp only [applyOp, processTransfer]
    split
    · exact h0
    · next hin =>
      have hin2 : insufficientBalance (getCustomerBalance db a) m = false := by
        simpa using hin
      split
      · exact h0
      · split
        · exact updateTransactionStatus_nonneg _ _ _
            (updateCustomerBalance_nonneg_of_nonneg _ _ _
              (updateCustomerBalance_nonneg_debit _ a m h0 hin2) (le_of_lt hm))
        · split
          · exact updateTransactionStatus_nonneg _ _ _
              (updateCustomerBalance_nonneg_of_nonneg _ _ _
                (updateCustomerBalance_nonneg_of_nonneg _ _ _
                  (updateCustomerBalance_nonneg_debit _ a m h0 hin2)
                  (le_of_lt hm))
                (le_of_lt hm))
          · exact updateTransactionStatus_nonneg _ _ _
              (updateCustomerBalance_nonneg_of_nonneg _ _ _
                (updateCustomerBalance_nonneg_debit _ a m h0 hin2) (le_of_lt hm))
  | track sid act =>
    simp only [applyOp]
    intro c hc
    rw [trackSession_customers] at hc
    exact h0 c hc

theorem runOps_nonneg (ops : List Op) :
    ∀ db : DB, balancesNonNeg db → (∀ op ∈ ops, opAmountPos op = true) →
      balancesNonNeg (runOps db ops) := by
  induction ops with
  | nil => intro db h _; exact h
  | cons op ops ih =>
    intro db h hall
    exact ih (applyOp db op)
      (applyOp_nonneg db op h (hall op (List.mem_cons_self _ _)))
      (fun o ho => hall o (List.mem_cons_of_mem _ ho))

theorem seedDB_nonneg : balancesNonNeg seedDB := by
  unfold balancesNonNeg
  decide

theorem WF_fresh (db : DB) (hWF : WF db) :
    ∀ t ∈ db.transactions, t.id ≠ db.nextId :=
  fun t ht => Nat.ne_of_lt (hWF t ht)

/-- Withdrawal, insufficient-funds path. -/
theorem processWithdrawal_insufficient (db : DB) (a : String) (m : Int)
    (hin : insufficientBalance (getCustomerBalance db a) m = true) :
    processWithdrawal db a m =
      ({ success := false,
         transaction :=
           { id := db.nextId, accountNumber := a, type := TxType.withdrawal,
             amount := m, destinationAccount := none, status := TxStatus.failed,
             reason := some "Insufficient funds" },
         reason := some "Insufficient funds" },
       { db with
           transactions :=
             db.transactions ++
               [{ id := db.nextId, accountNumber := a, type := TxType.withdrawal,
                  amount := m, destinationAccount := none,
                  status := TxStatus.failed, reason := some "Insufficient funds" }],
           analytics :=
             { db.analytics with
                 totalTransactions := db.analytics.totalTransactions + 1,
                 withdrawalTotal := db.analytics.withdrawalTotal + m },
           nextId := db.nextId + 1 }) := by
  simp [processWithdrawal, createTransaction, hin]

/-- Withdrawal, sufficient-funds path. -/
theorem processWithdrawal_ok (db : DB) (a : String) (m : Int) (hWF : WF db)
    (hin : insufficientBalance (getCustomerBalance db a) m = false) :
    (processWithdrawal db a m).1.success = true ∧
    (processWithdrawal db a m).2.customers = addToFirst db.customers a (-m) ∧
    (processWithdrawal db a m).2.transactions =
      db.transactions ++
        [{ id := db.nextId, accountNumber := a, type := TxType.withdrawal,
           amount := m, destinationAccount := none, status := TxStatus.completed,
           reason := none }] := by
  obtain ⟨b0, hb0, hmb⟩ := insufficientBalance_eq_false _ _ hin
  obtain ⟨c0, hc0, hbal⟩ := getCustomerBalance_eq_some db a b0 hb0
  have hfresh := WF_fresh db hWF
  have hfind_tx :
      (db.transactions ++
        [({ id := db.nextId, accountNumber := a, type := TxType.withdrawal,
            amount := m, destinationAccount := none, status := TxStatus.pending,
            reason := none } : Transaction)]).find?
          (fun t => t.id == db.nextId) =
        some { id := db.nextId, accountNumber := a, type := TxType.withdrawal,
               amount := m, destinationAccount := none,
               status := TxStatus.pending, reason := none } :=
    find?_id_append_fresh db.transactions
      { id := db.nextId, accountNumber := a, type := TxType.withdrawal,
        amount := m, destinationAccount := none, status := TxStatus.pending,
        reason := none } hfresh
  have hset_tx :
      setStatusFirst
        (db.transactions ++
          [{ id := db.nextId, accountNumber := a, type := TxType.withdrawal,
             amount := m, destinationAccount := none, status := TxStatus.pending,
             reason := none }]) db.nextId TxStatus.completed =
        db.transactions ++
          [{ id := db.nextId, accountNumber := a, type := TxType.withdrawal,
             amount := m, destinationAccount := none,
             status := TxStatus.completed, reason := none }] :=
    setStatusFirst_append_fresh db.transactions
      { id := db.nextId, accountNumber := a, type := TxType.withdrawal,
        amount := m, destinationAccount := none, status := TxStatus.pending,
        reason := none } TxStatus.completed hfresh
  refine ⟨?_, ?_, ?_⟩ <;>
    simp [processWithdrawal, createTransaction, updateCustomerBalance,
      updateTransactionStatus, hin, hc0, hfind_tx, hset_tx]

/-- Deposit when the account exists. -/
theorem processDeposit_account_exists (db : DB) (a : String) (m : Int)
    (c0 : Customer) (hWF : WF db)
    (hfind : db.customers.find? (fun c => c.accountNumber == a) = some c0) :
    (processDeposit db a m).1.success = true ∧
    (processDeposit db a m).2.customers = addToFirst db.customers a m ∧
    (processDeposit db a m).2.transactions =
      db.transactions ++
        [{ id := db.nextId, accountNumber := a, type := TxType.deposit,
           amount := m, destinationAccount := none, status := TxStatus.completed,
           reason := none }] := by
  have hfresh := WF_fresh db hWF
  have hfind_tx :
      (db.transactions ++
        [({ id := db.nextId, accountNumber := a, type := TxType.deposit,
            amount := m, destinationAccount := none, status := TxStatus.pending,
            reason := none } : Transaction)]).find?
          (fun t => t.id == db.nextId) =
        some { id := db.nextId, accountNumber := a, type := TxType.deposit,
               amount := m, destinationAccount := none,
               status := TxStatus.pending, reason := none } :=
    find?_id_append_fresh db.transactions
      { id := db.nextId, accountNumber := a, type := TxType.deposit,
        amount := m, destinationAccount := none, status := TxStatus.pending,
        reason := none } hfresh
  have hset_tx :
      setStatusFirst
        (db.transactions ++
          [{ id := db.nextId, accountNumber := a, type := TxType.deposit,
             amount := m, destinationAccount := none, status := TxStatus.pending,
             reason := none }]) db.nextId TxStatus.completed =
        db.transactions ++
          [{ id := db.nextId, accountNumber := a, type := TxType.deposit,
             amount := m, destinationAccount := none,
             status := TxStatus.completed, reason := none }] :=
    setStatusFirst_append_fresh db.transactions
      { id := db.nextId, accountNumber := a, type := TxType.deposit,
        amount := m, destinationAccount := none, status := TxStatus.pending,
        reason := none } TxStatus.completed hfresh
  refine ⟨?_, ?_, ?_⟩ <;>
    simp [processDeposit, createTransaction, updateCustomerBalance,
      updateTransactionStatus, hfind, hfind_tx, hset_tx]

/-- Deposit when the account is missing: the transaction is still created
(pending, then marked failed), no reason is recorded, and no balance
changes. -/
theorem processDeposit_account_missing (db : DB) (a : String) (m : Int)
    (hWF : WF db)
    (hfind : db.customers.find? (fun c => c.accountNumber == a) = none) :
    (processDeposit db a m).1.success = false ∧
    (processDeposit db a m).1.reason = none ∧
    (processDeposit db a m).2.customers = db.customers ∧
    (processDeposit db a m).2.transactions =
      db.transactions ++
        [{ id := db.nextId, accountNumber := a, type := TxType.deposit,
           amount := m, destinationAccount := none, status := TxStatus.failed,
           reason := none }] := by
  have hfresh := WF_fresh db hWF
  have hfind_tx :
      (db.transactions ++
        [({ id := db.nextId, accountNumber := a, type := TxType.deposit,
            amount := m, destinationAccount := none, status := TxStatus.pending,
            reason := none } : Transaction)]).find?
          (fun t => t.id == db.nextId) =
        some { id := db.nextId, accountNumber := a, type := TxType.deposit,
               amount := m, destinationAccount := none,
               status := TxStatus.pending, reason := none } :=
    find?_id_append_fresh db.transactions
      { id := db.nextId, accountNumber := a, type := TxType.deposit,
        amount := m, destinationAccount := none, status := TxStatus.pending,
        reason := none } hfresh
  have hset_tx :
      setStatusFirst
        (db.transactions ++
          [{ id := db.nextId, accountNumber := a, type := TxType.deposit,
             amount := m, destinationAccount := none, status := TxStatus.pending,
             reason := none }]) db.nextId TxStatus.failed =
        db.transactions ++
          [{ id := db.nextId, accountNumber := a, type := TxType.deposit,
             amount := m, destinationAccount := none,
             status := TxStatus.failed, reason := none }] :=
    setStatusFirst_append_fresh db.transactions
      { id := db.nextId, accountNumber := a, type := TxType.deposit,
        amount := m, destinationAccount := none, status := TxStatus.pending,
        reason := none } TxStatus.failed hfresh
  refine ⟨?_, ?_, ?_, ?_⟩ <;>
    simp [processDeposit, createTransaction, updateCustomerBalance,
      updateTransactionStatus, hfind, hfind_tx, hset_tx]

/-- Transfer, insufficient-funds path: checked first, so it wins whatever
the destination is. -/
theorem processTransfer_insufficient (db : DB) (a b : String) (m : Int)
    (hin : insufficientBalance (getCustomerBalance db a) m = true) :
    processTransfer db a b m =
      ({ success := false,
         transaction :=
           { id := db.nextId, accountNumber := a, type := TxType.transfer,
             amount := m, destinationAccount := some b,
             status := TxStatus.failed, reason := some "Insufficient funds" },
         reason := some "Insufficient funds" },
       { db with
           transactions :=
             db.transactions ++
               [{ id := db.nextId, accountNumber := a, type := TxType.transfer,
                  amount := m, destinationAccount := some b,
                  status := TxStatus.failed,
                  reason := some "Insufficient funds" }],
           analytics :=
             { db.analytics with
                 totalTransactions := db.analytics.totalTransactions + 1,
                 transferTotal := db.analytics.transferTotal + m },
           nextId := db.nextId + 1 }) := by
  simp [processTransfer, createTransaction, hin]

/-- Transfer, destination-missing path. -/
theorem processTransfer_dest_missing (db : DB) (a b : String) (m : Int)
    (hin : insufficientBalance (getCustomerBalance db a) m = false)
    (hdest : db.customers.find? (fun c => c.accountNumber == b) = none) :
    processTransfer db a b m =
      ({ success := false,
         transaction :=
           { id := db.nextId, accountNumber := a, type := TxType.transfer,
             amount := m, destinationAccount := some b,
             status := TxStatus.failed,
             reason := some "Destination account not found" },
         reason := some "Destination account not found" },
       { db with
           transactions :=
             db.transactions ++
               [{ id := db.nextId, accountNumber := a, type := TxType.transfer,
                  amount := m, destinationAccount := some b,
                  status := TxStatus.failed,
                  reason := some "Destination account not found" }],
           analytics :=
             { db.analytics with
                 totalTransactions := db.analytics.totalTransactions + 1,
                 transferTotal := db.analytics.transferTotal + m },
           nextId := db.nextId + 1 }) := by
  simp [processTransfer, getCustomerByAccountNumber, createTransaction, hin, hdest]

/-- Transfer, both checks pass: the happy path always succeeds. -/
theorem processTransfer_ok (db : DB) (a b : String) (m : Int) (c1 : Customer)
    (hWF : WF db)
    (hin : insufficientBalance (getCustomerBalance db a) m = false)
    (hdest : db.customers.find? (fun c => c.accountNumber == b) = some c1) :
    (processTransfer db a b m).1.success = true ∧
    (processTransfer db a b m).2.customers =
      addToFirst (addToFirst db.customers a (-m)) b m ∧
    (processTransfer db a b m).2.transactions =
      db.transactions ++
        [{ id := db.nextId, accountNumber := a, type := TxType.transfer,
           amount := m, destinationAccount := some b,
           status := TxStatus.completed, reason := none }] := by
  obtain ⟨b0, hb0, hmb⟩ := insufficientBalance_eq_false _ _ hin
  obtain ⟨c0, hc0, hbal⟩ := getCustomerBalance_eq_some db a b0 hb0
  have hc2iso :
      ((addToFirst db.customers a (-m)).find?
        (fun c => c.accountNumber == b)).isSome = true := by
    rw [find?_acct_addToFirst_isSome, hdest]
    rfl
  obtain ⟨c2, hc2⟩ := Option.isSome_iff_exists.mp hc2iso
  have hfresh := WF_fresh db hWF
  have hfind_tx :
      (db.transactions ++
        [({ id := db.nextId, accountNumber := a, type := TxType.transfer,
            amount := m, destinationAccount := some b,
            status := TxStatus.pending, reason := none } : Transaction)]).find?
          (fun t => t.id == db.nextId) =
        some { id := db.nextId, accountNumber := a, type := TxType.transfer,
               amount := m, destinationAccount := some b,
               status := TxStatus.pending, reason := none } :=
    find?_id_append_fresh db.transactions
      { id := db.nextId, accountNumber := a, type := TxType.transfer,
        amount := m, destinationAccount := some b, status := TxStatus.pending,
        reason := none } hfresh
  have hset_tx :
      setStatusFirst
        (db.transactions ++
          [{ id := db.nextId, accountNumber := a, type := TxType.transfer,
             amount := m, destinationAccount := some b,
             status := TxStatus.pending, reason := none }]) db.nextId
          TxStatus.completed =
        db.transactions ++
          [{ id := db.nextId, accountNumber := a, type := TxType.transfer,
             amount := m, destinationAccount := some b,
             status := TxStatus.completed, reason := none }] :=
    setStatusFirst_append_fresh db.transactions
      { id := db.nextId, accountNumber := a, type := TxType.transfer,
        amount := m, destinationAccount := some b, status := TxStatus.pending,
        reason := none } TxStatus.completed hfresh
  refine ⟨?_, ?_, ?_⟩ <;>
    simp [processTransfer, getCustomerByAccountNumber, createTransaction,
      updateCustomerBalance, updateTransactionStatus, hin, hdest, hc0, hc2,
      hfind_tx, hset_tx]

theorem removeFirst_of_not_mem (l : List String) (x : String) (h : x ∉ l) :
    removeFirst l x = l := by
  induction l with
  | nil => rfl
  | cons s ss ih =>
    have hx : ¬(x = s ∨ x ∈ ss) := by simpa [List.mem_cons] using h
    have h1 : (s == x) = false := by
      simp only [beq_eq_false_iff_ne, ne_eq]
      intro hsx
      exact hx (Or.inl hsx.symm)
    simp [removeFirst, h1, ih (fun hss => hx (Or.inr hss))]

theorem processTransfer_ok_customers (db : DB) (a b : String) (m : Int)
    (c1 : Customer)
    (hin : insufficientBalance (getCustomerBalance db a) m = false)
    (hdest : db.customers.find? (fun c => c.accountNumber == b) = some c1) :
    (processTransfer db a b m).1.success = true ∧
    (processTransfer db a b m).2.customers =
      addToFirst (addToFirst db.customers a (-m)) b m := by
  obtain ⟨b0, hb0, hmb⟩ := insufficientBalance_eq_false _ _ hin
  obtain ⟨c0, hc0, hbal⟩ := getCustomerBalance_eq_some db a b0 hb0
  have hc2iso :
      ((addToFirst db.customers a (-m)).find?
        (fun c => c.accountNumber == b)).isSome = true := by
    rw [find?_acct_addToFirst_isSome, hdest]
    rfl
  obtain ⟨c2, hc2⟩ := Option.isSome_iff_exists.mp hc2iso
  constructor <;>
    simp [processTransfer, getCustomerByAccountNumber, createTransaction,
      updateCustomerBalance, updateTransactionStatus_customers, hin, hdest,
      hc0, hc2]

/- ### The claims -/

/-- Claim C1: a successful `processTransfer` between two distinct existing
accounts conserves the sum of all balances, and on the seeded ledger
`transfer(10001, 10002, 750)` succeeds, leaves the source at 4250 and the
destination at 8250, and appends exactly one `completed` transfer
transaction. -/
theorem claim_C1_transfer_conservation :
    (∀ (db : DB) (a b : String) (m : Int) (r : OpResult) (db2 : DB),
      a ≠ b →
      (∃ c ∈ db.customers, c.accountNumber = a) →
      (∃ c ∈ db.customers, c.accountNumber = b) →
      processTransfer db a b m = (r, db2) →
      r.success = true →
      sumBalances db2.customers = sumBalances db.customers) ∧
    (processTransfer seedDB "10001" "10002" 750).1.success = true ∧
    getCustomerBalance (processTransfer seedDB "10001" "10002" 750).2 "10001" =
      some 4250 ∧
    getCustomerBalance (processTransfer seedDB "10001" "10002" 750).2 "10002" =
      some 8250 ∧
    (processTransfer seedDB "10001" "10002" 750).2.transactions =
      seedDB.transactions ++
        [{ id := 3, accountNumber := "10001", type := TxType.transfer,
           amount := 750, destinationAccount := some "10002",
           status := TxStatus.completed, reason := none }] := by
  refine ⟨?_, by decide, by decide, by decide, by decide⟩
  intro db a b m r db2 hne hA hB heq hsucc
  cases hin : insufficientBalance (getCustomerBalance db a) m with
  | true =>
    rw [processTransfer_insufficient db a b m hin] at heq
    injection heq with h1 h2
    rw [← h1] at hsucc
    simp at hsucc
  | false =>
    cases hdest : db.customers.find? (fun c => c.accountNumber == b) with
    | none =>
      rw [processTransfer_dest_missing db a b m hin hdest] at heq
      injection heq with h1 h2
      rw [← h1] at hsucc
      simp at hsucc
    | some c1 =>
      have hcust := (processTransfer_ok_customers db a b m c1 hin hdest).2
      have hdb2 : db2 = (processTransfer db a b m).2 := by rw [heq]
      rw [hdb2, hcust]
      obtain ⟨b0, hb0, hmb⟩ := insufficientBalance_eq_false _ _ hin
      obtain ⟨c0, hc0, hbal⟩ := getCustomerBalance_eq_some db a b0 hb0
      have hsrcIso :
          (db.customers.find? (fun c => c.accountNumber == a)).isSome = true := by
        rw [hc0]; rfl
      have hdestIso :
          ((addToFirst db.customers a (-m)).find?
            (fun c => c.accountNumber == b)).isSome = true := by
        rw [find?_acct_addToFirst_isSome, hdest]
        rfl
      rw [sumBalances_addToFirst _ _ _ hdestIso,
        sumBalances_addToFirst _ _ _ hsrcIso]
      ring

/-- Claim C1 witness: the conservation law applied to the seeded ledger at
`transfer(10001, 10002, 750)`. -/
theorem claim_C1_witness :
    sumBalances (processTransfer seedDB "10001" "10002" 750).2.customers =
      sumBalances seedDB.customers :=
  claim_C1_transfer_conservation.1 seedDB "10001" "10002" 750
    (processTransfer seedDB "10001" "10002" 750).1
    (processTransfer seedDB "10001" "10002" 750).2
    (by decide) (by decide) (by decide) rfl (by decide)

/-- Claim C2 counterexample: after one failed withdrawal attempt (amount
999999 against balance 5000) the summary's `withdrawalTotal` is 1000499,
while the sum of `amount` over `completed` withdrawal log entries is still
500 — failed attempts do contribute to the analytics totals. -/
theorem claim_C2_counterexample :
    (getTransactionSummary
        (processWithdrawal seedDB "10001" 999999).2).withdrawalTotal =
      1000499 ∧
    completedTypeTotal (processWithdrawal seedDB "10001" 999999).2.transactions
      TxType.withdrawal = 500 ∧
    (getTransactionSummary
        (processWithdrawal seedDB "10001" 999999).2).withdrawalTotal ≠
      completedTypeTotal
        (processWithdrawal seedDB "10001" 999999).2.transactions
        TxType.withdrawal := by
  refine ⟨by decide, by decide, by decide⟩

/-- Claim C2 (amended): after every sequence of ledger operations starting
from the seeded state, the summary totals equal the sum of `amount` over
ALL Transaction Log entries of the corresponding type, regardless of
status — failed and pending attempts contribute as well. -/
theorem claim_C2_analytics_totals (ops : List Op) :
    (getTransactionSummary (runOps seedDB ops)).depositTotal =
      typeTotal (runOps seedDB ops).transactions TxType.deposit ∧
    (getTransactionSummary (runOps seedDB ops)).withdrawalTotal =
      typeTotal (runOps seedDB ops).transactions TxType.withdrawal ∧
    (getTransactionSummary (runOps seedDB ops)).transferTotal =
      typeTotal (runOps seedDB ops).transactions TxType.transfer := by
  obtain ⟨h1, h2, h3⟩ := runOps_consistent ops seedDB seedDB_consistent
  exact ⟨h1, h2, h3⟩

/-- Claim C3: the code has no amount validation at all.  On the seeded
ledger, `processWithdrawal(10001, -10)` succeeds, appends a transaction
and RAISES the balance to 5010; `processTransfer(10001, 10002, 0)`
appends a transaction; `processDeposit(10001, -10)` is not rejected — it
succeeds, appends a transaction and lowers the balance to 4990. -/
theorem claim_C3_no_amount_validation :
    (processWithdrawal seedDB "10001" (-10)).1.success = true ∧
    (processWithdrawal seedDB "10001" (-10)).2.transactions.length =
      seedDB.transactions.length + 1 ∧
    getCustomerBalance (processWithdrawal seedDB "10001" (-10)).2 "10001" =
      some 5010 ∧
    (processTransfer seedDB "10001" "10002" 0).2.transactions.length =
      seedDB.transactions.length + 1 ∧
    (processDeposit seedDB "10001" (-10)).1.success = true ∧
    (processDeposit seedDB "10001" (-10)).2.transactions.length =
      seedDB.transactions.length + 1 ∧
    getCustomerBalance (processDeposit seedDB "10001" (-10)).2 "10001" =
      some 4990 := by
  refine ⟨by decide, by decide, by decide, by decide, by decide, by decide,
    by decide⟩

/-- Claim C4 counterexample: on the seeded ledger a transfer with a
negative amount is marked `completed` (success) and drives the
destination balance negative: `transfer(10001, 10002, -8000)` leaves
account 10002 at -500. -/
theorem claim_C4_counterexample :
    (processTransfer seedDB "10001" "10002" (-8000)).1.success = true ∧
    (processTransfer seedDB "10001" "10002" (-8000)).1.transaction.status =
      TxStatus.completed ∧
    getCustomerBalance (processTransfer seedDB "10001" "10002" (-8000)).2
      "10002" = some (-500) := by
  refine ⟨by decide, by decide, by decide⟩

/-- Claim C4 (amended): for every sequence of ledger operations with
strictly positive amounts starting from the seeded state, no account
balance ever becomes negative. -/
theorem claim_C4_nonnegative_balances (ops : List Op)
    (hpos : ∀ op ∈ ops, opAmountPos op = true) :
    ∀ c ∈ (runOps seedDB ops).customers, 0 ≤ c.balance :=
  runOps_nonneg ops seedDB seedDB_nonneg hpos

/-- Claim C4 witness: a concrete positive-amount sequence keeps every
balance non-negative. -/
theorem claim_C4_witness :
    ((runOps seedDB
        [Op.transfer "10001" "10002" 750, Op.withdrawal "10003" 12000,
         Op.deposit "10002" 1]).customers.all
      (fun c => decide (0 ≤ c.balance))) = true := by
  have h := claim_C4_nonnegative_balances
    [Op.transfer "10001" "10002" 750, Op.withdrawal "10003" 12000,
     Op.deposit "10002" 1] (by decide)
  rw [List.all_eq_true]
  intro c hc
  exact decide_eq_true (h c hc)

/-- Claim C5: every call to `processDeposit`, `processWithdrawal` or
`processTransfer` with a positive amount appends exactly one transaction
to the log, and its status on return is `completed` or `failed`, never
`pending`. -/
theorem claim_C5_audit_completeness (db : DB) (a b : String) (m : Int)
    (hWF : WF db) (hm : 0 < m) :
    (∃ tx : Transaction,
      (processDeposit db a m).2.transactions = db.transactions ++ [tx] ∧
      tx.type = TxType.deposit ∧
      (tx.status = TxStatus.completed ∨ tx.status = TxStatus.failed)) ∧
    (∃ tx : Transaction,
      (processWithdrawal db a m).2.transactions = db.transactions ++ [tx] ∧
      tx.type = TxType.withdrawal ∧
      (tx.status = TxStatus.completed ∨ tx.status = TxStatus.failed)) ∧
    (∃ tx : Transaction,
      (processTransfer db a b m).2.transactions = db.transactions ++ [tx] ∧
      tx.type = TxType.transfer ∧
      (tx.status = TxStatus.completed ∨ tx.status = TxStatus.failed)) := by
  refine ⟨?_, ?_, ?_⟩
  · cases hfind : db.customers.find? (fun c => c.accountNumber == a) with
    | none =>
      exact ⟨_, (processDeposit_account_missing db a m hWF hfind).2.2.2, rfl,
        Or.inr rfl⟩
    | some c0 =>
      exact ⟨_, (processDeposit_account_exists db a m c0 hWF hfind).2.2, rfl,
        Or.inl rfl⟩
  · cases hin : insufficientBalance (getCustomerBalance db a) m with
    | true =>
      refine ⟨{ id := db.nextId, accountNumber := a, type := TxType.withdrawal,
                amount := m, destinationAccount := none,
                status := TxStatus.failed,
                reason := some "Insufficient funds" }, ?_, rfl, Or.inr rfl⟩
      rw [processWithdrawal_insufficient db a m hin]
    | false =>
      exact ⟨_, (processWithdrawal_ok db a m hWF hin).2.2, rfl, Or.inl rfl⟩
  · cases hin : insufficientBalance (getCustomerBalance db a) m with
    | true =>
      refine ⟨{ id := db.nextId, accountNumber := a, type := TxType.transfer,
                amount := m, destinationAccount := some b,
                status := TxStatus.failed,
                reason := some "Insufficient funds" }, ?_, rfl, Or.inr rfl⟩
      rw [processTransfer_insufficient db a b m hin]
    | false =>
      cases hdest : db.customers.find? (fun c => c.accountNumber == b) with
      | none =>
        refine ⟨{ id := db.nextId, accountNumber := a,
                  type := TxType.transfer, amount := m,
                  destinationAccount := some b, status := TxStatus.failed,
                  reason := some "Destination account not found" }, ?_, rfl,
                Or.inr rfl⟩
        rw [processTransfer_dest_missing db a b m hin hdest]
      | some c1 =>
        exact ⟨_, (processTransfer_ok db a b m c1 hWF hin hdest).2.2, rfl,
          Or.inl rfl⟩

/-- Claim C5 witness: the property at the seeded ledger with amount 5. -/
theorem claim_C5_witness :
    ∃ tx : Transaction,
      (processDeposit seedDB "10001" 5).2.transactions =
        seedDB.transactions ++ [tx] ∧
      tx.type = TxType.deposit ∧
      (tx.status = TxStatus.completed ∨ tx.status = TxStatus.failed) :=
  (claim_C5_audit_completeness seedDB "10001" "10002" 5
    (by unfold WF; decide) (by decide)).1

/-- Claim C6: for every positive amount, when the account is missing or
its balance is below the amount, `processWithdrawal` fails with reason
"Insufficient funds", appends exactly one withdrawal transaction already
marked `failed`, and leaves every customer balance untouched. -/
theorem claim_C6_insufficient_withdrawal (db : DB) (a : String) (m : Int)
    (hm : 0 < m)
    (hcase : getCustomerBalance db a = none ∨
      ∃ bal, getCustomerBalance db a = some bal ∧ bal < m) :
    (processWithdrawal db a m).1.success = false ∧
    (processWithdrawal db a m).1.reason = some "Insufficient funds" ∧
    (processWithdrawal db a m).2.customers = db.customers ∧
    (processWithdrawal db a m).2.transactions =
      db.transactions ++
        [{ id := db.nextId, accountNumber := a, type := TxType.withdrawal,
           amount := m, destinationAccount := none, status := TxStatus.failed,
           reason := some "Insufficient funds" }] := by
  have hin : insufficientBalance (getCustomerBalance db a) m = true := by
    rcases hcase with h | ⟨bal, hb, hlt⟩ <;>
      simp [insufficientBalance, *]
  rw [processWithdrawal_insufficient db a m hin]
  exact ⟨rfl, rfl, rfl, rfl⟩

/-- Claim C6 witness: on the seeded ledger, withdrawing 999999 from
account 10001 (balance 5000) fails as insufficient. -/
theorem claim_C6_witness :
    (processWithdrawal seedDB "10001" 999999).1.success = false ∧
    (processWithdrawal seedDB "10001" 999999).1.reason =
      some "Insufficient funds" ∧
    (processWithdrawal seedDB "10001" 999999).2.customers =
      seedDB.customers ∧
    (processWithdrawal seedDB "10001" 999999).2.transactions =
      seedDB.transactions ++
        [{ id := seedDB.nextId, accountNumber := "10001",
           type := TxType.withdrawal, amount := 999999,
           destinationAccount := none, status := TxStatus.failed,
           reason := some "Insufficient funds" }] :=
  claim_C6_insufficient_withdrawal seedDB "10001" 999999 (by decide)
    (Or.inr ⟨5000, by decide, by decide⟩)

/-- Claim C7: `processTransfer` checks source sufficiency first — an
insufficient source yields the "Insufficient funds" failure for EVERY
destination, existing or not — and with a sufficient source and a missing
destination it fails with "Destination account not found", appending
exactly one failed transfer transaction and changing no balance in either
case. -/
theorem claim_C7_transfer_validation_order :
    (∀ (db : DB) (a b : String) (m : Int),
      (getCustomerBalance db a = none ∨
        ∃ bal, getCustomerBalance db a = some bal ∧ bal < m) →
      (processTransfer db a b m).1.success = false ∧
      (processTransfer db a b m).1.reason = some "Insufficient funds" ∧
      (processTransfer db a b m).2.customers = db.customers ∧
      (processTransfer db a b m).2.transactions =
        db.transactions ++
          [{ id := db.nextId, accountNumber := a, type := TxType.transfer,
             amount := m, destinationAccount := some b,
             status := TxStatus.failed,
             reason := some "Insufficient funds" }]) ∧
    (∀ (db : DB) (a b : String) (m : Int),
      (∃ bal, getCustomerBalance db a = some bal ∧ m ≤ bal) →
      getCustomerByAccountNumber db b = none →
      (processTransfer db a b m).1.success = false ∧
      (processTransfer db a b m).1.reason =
        some "Destination account not found" ∧
      (processTransfer db a b m).2.customers = db.customers ∧
      (processTransfer db a b m).2.transactions =
        db.transactions ++
          [{ id := db.nextId, accountNumber := a, type := TxType.transfer,
             amount := m, destinationAccount := some b,
             status := TxStatus.failed,
             reason := some "Destination account not found" }]) := by
  constructor
  · intro db a b m hcase
    have hin : insufficientBalance (getCustomerBalance db a) m = true := by
      rcases hcase with h | ⟨bal, hb, hlt⟩ <;>
        simp [insufficientBalance, *]
    rw [processTransfer_insufficient db a b m hin]
    exact ⟨rfl, rfl, rfl, rfl⟩
  · intro db a b m hsuff hdest
    obtain ⟨bal, hb, hle⟩ := hsuff
    have hin : insufficientBalance (getCustomerBalance db a) m = false := by
      simp [insufficientBalance, hb, not_lt.mpr hle]
    have hdest2 :
        db.customers.find? (fun c => c.accountNumber == b) = none := hdest
    rw [processTransfer_dest_missing db a b m hin hdest2]
    exact ⟨rfl, rfl, rfl, rfl⟩

/-- Claim C7 witness: on the seeded ledger, a transfer from 10001 to a
missing destination with an excessive amount still reports "Insufficient
funds" (first check wins), and `transfer(10001, "nonexistent", 100)` with
a sufficient source reports "Destination account not found". -/
theorem claim_C7_witness :
    (processTransfer seedDB "10001" "nowhere" 999999).1.reason =
      some "Insufficient funds" ∧
    (processTransfer seedDB "10001" "nonexistent" 100).1.success = false ∧
    (processTransfer seedDB "10001" "nonexistent" 100).1.reason =
      some "Destination account not found" ∧
    (processTransfer seedDB "10001" "nonexistent" 100).2.customers =
      seedDB.customers :=
  ⟨(claim_C7_transfer_validation_order.1 seedDB "10001" "nowhere" 999999
      (Or.inr ⟨5000, by decide, by decide⟩)).2.1,
   (claim_C7_transfer_validation_order.2 seedDB "10001" "nonexistent" 100
      ⟨5000, by decide, by decide⟩ (by decide)).1,
   (claim_C7_transfer_validation_order.2 seedDB "10001" "nonexistent" 100
      ⟨5000, by decide, by decide⟩ (by decide)).2.1,
   (claim_C7_transfer_validation_order.2 seedDB "10001" "nonexistent" 100
      ⟨5000, by decide, by decide⟩ (by decide)).2.2.1⟩

/-- Claim C8 counterexample: a deposit to the missing account 99999 does
fail, but NO reason is recorded anywhere — neither the returned result
nor any log entry carries "account not found" (in any casing). -/
theorem claim_C8_counterexample :
    (processDeposit seedDB "99999" 5).1.success = false ∧
    (processDeposit seedDB "99999" 5).1.reason = none ∧
    (∀ t ∈ (processDeposit seedDB "99999" 5).2.transactions,
      t.reason ≠ some "account not found") ∧
    (∀ t ∈ (processDeposit seedDB "99999" 5).2.transactions,
      t.reason ≠ some "Account not found") := by
  refine ⟨by decide, by decide, by decide, by decide⟩

/-- Claim C8 (amended): for every positive amount and missing account,
`processDeposit` creates a pending transaction, the balance adjustment
reports failure (account not found), the transaction is marked `failed`
— with no reason recorded — and failure is returned with no balance
changed. -/
theorem claim_C8_failed_deposit (db : DB) (a : String) (m : Int)
    (hWF : WF db) (hm : 0 < m)
    (hfind : db.customers.find? (fun c => c.accountNumber == a) = none) :
    (createTransaction db
      { accountNumber := a, type := TxType.deposit, amount := m,
        destinationAccount := none, status := none,
        reason := none }).1.status = TxStatus.pending ∧
    (updateCustomerBalance db a m).1 = false ∧
    (processDeposit db a m).1.success = false ∧
    (processDeposit db a m).1.reason = none ∧
    (processDeposit db a m).2.customers = db.customers ∧
    (processDeposit db a m).2.transactions =
      db.transactions ++
        [{ id := db.nextId, accountNumber := a, type := TxType.deposit,
           amount := m, destinationAccount := none, status := TxStatus.failed,
           reason := none }] := by
  refine ⟨rfl, ?_, ?_, ?_, ?_, ?_⟩
  · rw [updateCustomerBalance_fst, hfind]
    rfl
  · exact (processDeposit_account_missing db a m hWF hfind).1
  · exact (processDeposit_account_missing db a m hWF hfind).2.1
  · exact (processDeposit_account_missing db a m hWF hfind).2.2.1
  · exact (processDeposit_account_missing db a m hWF hfind).2.2.2

/-- Claim C8 witness: the amended claim at the missing account 99999 on
the seeded ledger. -/
theorem claim_C8_witness :
    (processDeposit seedDB "99999" 5).1.success = false ∧
    (processDeposit seedDB "99999" 5).2.customers = seedDB.customers :=
  ⟨(claim_C8_failed_deposit seedDB "99999" 5 (by unfold WF; decide)
      (by decide) (by decide)).2.2.1,
   (claim_C8_failed_deposit seedDB "99999" 5 (by unfold WF; decide)
      (by decide) (by decide)).2.2.2.2.1⟩

/-- Claim C9 counterexample: `trackSession` does not maintain a set —
re-adding an already active id is NOT a no-op: the reported count goes
from 1 to 2 while only one distinct id is active. -/
theorem claim_C9_counterexample :
    (trackSession seedDB "s1" true).1 = 1 ∧
    (trackSession (trackSession seedDB "s1" true).2 "s1" true).1 = 2 ∧
    (trackSession (trackSession seedDB "s1" true).2 "s1" true).2.sessions.dedup.length = 1 ∧
    (trackSession (trackSession seedDB "s1" true).2 "s1" true).1 ≠
      (trackSession (trackSession seedDB "s1" true).2 "s1" true).2.sessions.dedup.length := by
  refine ⟨by decide, by decide, by decide, by decide⟩

/-- Claim C9 (amended): `trackSession` maintains a LIST of session ids.
Activating always appends (so re-adding an active id increments the
count); deactivating an absent id is a no-op; after every call the
reported count equals the number of session entries counted with
multiplicity. -/
theorem claim_C9_session_tracking :
    (∀ (db : DB) (sid : String),
      (trackSession db sid true).2.sessions = db.sessions ++ [sid] ∧
      (trackSession db sid true).1 = db.sessions.length + 1) ∧
    (∀ (db : DB) (sid : String), sid ∉ db.sessions →
      (trackSession db sid false).2.sessions = db.sessions ∧
      (trackSession db sid false).1 = db.sessions.length) ∧
    (∀ (db : DB) (sid : String) (act : Bool),
      (trackSession db sid act).1 =
        (trackSession db sid act).2.sessions.length ∧
      (trackSession db sid act).2.analytics.activeSessions =
        (trackSession db sid act).2.sessions.length) := by
  refine ⟨?_, ?_, ?_⟩
  · intro db sid
    exact ⟨rfl, by simp [trackSession]⟩
  · intro db sid hmem
    have hrm : removeFirst db.sessions sid = db.sessions :=
      removeFirst_of_not_mem db.sessions sid hmem
    exact ⟨by simp [trackSession, hrm], by simp [trackSession, hrm]⟩
  · intro db sid act
    cases act <;> exact ⟨rfl, rfl⟩

/-- Claim C9 witness: deactivating an id that was never activated leaves
the session list and count unchanged on the seeded ledger. -/
theorem claim_C9_witness :
    (trackSession seedDB "s9" false).2.sessions = seedDB.sessions ∧
    (trackSession seedDB "s9" false).1 = seedDB.sessions.length :=
  claim_C9_session_tracking.2.1 seedDB "s9" (by decide)

/-- Claim C10: `getTransactionsByAccountNumber N` returns exactly the log
entries whose source account is `N`, in insertion order, and a transfer
whose destination is `N` but whose source is a different account never
shows up in `N`'s history — even though it may complete and change `N`'s
balance. -/
theorem claim_C10_history_by_source :
    (∀ (db : DB) (n : String) (t : Transaction),
      t ∈ getTransactionsByAccountNumber db n ↔
        t ∈ db.transactions ∧ t.accountNumber = n) ∧
    (∀ (db : DB) (n : String),
      (getTransactionsByAccountNumber db n).Sublist db.transactions) ∧
    (∀ (db : DB) (a b n : String) (m : Int), WF db → a ≠ n →
      getTransactionsByAccountNumber (processTransfer db a b m).2 n =
        getTransactionsByAccountNumber db n) := by
  refine ⟨?_, ?_, ?_⟩
  · intro db n t
    simp [getTransactionsByAccountNumber, List.mem_filter]
  · intro db n
    exact List.filter_sublist db.transactions
  · intro db a b n m hWF hne
    have hbeq : (a == n) = false := by
      simp only [beq_eq_false_iff_ne, ne_eq]
      exact hne
    cases hin : insufficientBalance (getCustomerBalance db a) m with
    | true =>
      rw [getTransactionsByAccountNumber,
        processTransfer_insufficient db a b m hin]
      simp [getTransactionsByAccountNumber, List.filter_append, hbeq]
    | false =>
      cases hdest : db.customers.find? (fun c => c.accountNumber == b) with
      | none =>
        rw [getTransactionsByAccountNumber,
          processTransfer_dest_missing db a b m hin hdest]
        simp [getTransactionsByAccountNumber, List.filter_append, hbeq]
      | some c1 =>
        rw [getTransactionsByAccountNumber,
          (processTransfer_ok db a b m c1 hWF hin hdest).2.2]
        simp [getTransactionsByAccountNumber, List.filter_append, hbeq]

/-- Claim C10 witness: the completed transfer `10001 → 10002` changes
10002's balance but not 10002's transaction history. -/
theorem claim_C10_witness :
    getTransactionsByAccountNumber
        (processTransfer seedDB "10001" "10002" 750).2 "10002" =
      getTransactionsByAccountNumber seedDB "10002" :=
  claim_C10_history_by_source.2.2 seedDB "10001" "10002" "10002" 750
    (by unfold WF; decide) (by decide)

/-- Claim C2 witness: the amended totals law at a concrete one-operation
sequence (a failed withdrawal attempt). -/
theorem claim_C2_witness :
    (getTransactionSummary
        (runOps seedDB [Op.withdrawal "10001" 999999])).depositTotal =
      typeTotal (runOps seedDB [Op.withdrawal "10001" 999999]).transactions
        TxType.deposit ∧
    (getTransactionSummary
        (runOps seedDB [Op.withdrawal "10001" 999999])).withdrawalTotal =
      typeTotal (runOps seedDB [Op.withdrawal "10001" 999999]).transactions
        TxType.withdrawal ∧
    (getTransactionSummary
        (runOps seedDB [Op.withdrawal "10001" 999999])).transferTotal =
      typeTotal (runOps seedDB [Op.withdrawal "10001" 999999]).transactions
        TxType.transfer :=
  claim_C2_analytics_totals [Op.withdrawal "10001" 999999]
